import Mathlib

/-!
Verification of the `cv_virtual` web application (`src/app.py`) against its
natural-language specification.

The application is a Flask app offering a file compressor at `/compressor`:
uploaded files are extension-validated, optionally image-converted, and bundled
into a ZIP; a session-scoped daily quota and a premium flag gate access.  We
give a shallow embedding: the session is an association list plus a boolean,
each route is a pure function on the session (external calls — the PIL image
library and the Stripe SDK — are parameters), and the POST handler of
`/compressor` is translated line by line from the source.
-/

namespace CvVirtual

/-- File contents are byte strings, modelled as lists of naturals. -/
abbrev Bytes := List Nat

/-- `FREE_LIMIT_PER_DAY = 2` (app.py line 66). -/
def FREE_LIMIT_PER_DAY : Nat := 2

/-- `FREE_SIZE_LIMIT = 2 * 1024 * 1024` (app.py line 67). -/
def FREE_SIZE_LIMIT : Nat := 2 * 1024 * 1024

/-- `PREMIUM_SIZE_LIMIT = 50 * 1024 * 1024` (app.py line 68). -/
def PREMIUM_SIZE_LIMIT : Nat := 50 * 1024 * 1024

/-- The extension allow-list `ALLOWED` of `allowed_file` (app.py line 89). -/
def ALLOWED : List String := ["png", "jpg", "jpeg", "gif", "pdf", "zip"]

/-- Split a character list at every occurrence of `sep` (the pieces of a
Python `split`), by structural recursion so that proofs can evaluate it. -/
def splitOnChar (sep : Char) : List Char → List (List Char)
  | [] => [[]]
  | c :: rest =>
    if c = sep then [] :: splitOnChar sep rest
    else match splitOnChar sep rest with
      | [] => [[c]]
      | g :: gs => (c :: g) :: gs

/-- Python `str.lower()` on one character, for the ASCII range the
application's extensions live in. -/
def lowerChar (c : Char) : Char :=
  if 'A' ≤ c ∧ c ≤ 'Z' then Char.ofNat (c.toNat + 32) else c

/-- Python `str.upper()` on one character (ASCII range). -/
def upperChar (c : Char) : Char :=
  if 'a' ≤ c ∧ c ≤ 'z' then Char.ofNat (c.toNat - 32) else c

/-- Python `str.upper()` (`format_option.upper()`, app.py line 183). -/
def upperStr (s : String) : String := String.mk (s.data.map upperChar)

/-- `allowed_file(filename)` (app.py lines 88-90):
`'.' in filename and filename.rsplit('.', 1)[1].lower() in ALLOWED`.
`rsplit('.', 1)[1]` is the text after the last dot, i.e. the last piece of
the split at `'.'` when there are at least two pieces. -/
def allowed_file (filename : String) : Bool :=
  let parts := splitOnChar '.' filename.data
  decide (2 ≤ parts.length) &&
    ALLOWED.contains (String.mk ((parts.getLastD []).map lowerChar))

/-- A Flask session: the `premium` boolean plus the `uploads_<date>` counters,
kept as an association list from key to count (a key can be absent). -/
structure Session where
  premium : Bool
  uploads : List (String × Nat)
deriving DecidableEq

/-- The empty session of a fresh visitor. -/
def Session.init : Session := ⟨false, []⟩

/-- Python dict read: value of `k`, or `none` when the key is absent. -/
def getKey : List (String × Nat) → String → Option Nat
  | [], _ => none
  | (k', v) :: rest, k => if k' = k then some v else getKey rest k

/-- Python dict write `d[k] = v`: overwrite in place or append. -/
def setKey : List (String × Nat) → String → Nat → List (String × Nat)
  | [], k, v => [(k, v)]
  | (k', v') :: rest, k, v =>
    if k' = k then (k, v) :: rest else (k', v') :: setKey rest k v

/-- The session key `f"uploads_{today}"` (app.py lines 76, 84). -/
def uploadsKey (today : String) : String := "uploads_" ++ today

/-- Store a counter value in the session. -/
def Session.withKey (s : Session) (k : String) (v : Nat) : Session :=
  ⟨s.premium, setKey s.uploads k v⟩

/-- The quota counter a date, with an absent key counting as 0
(`session.get(key, 0)`). -/
def uploadCount (s : Session) (today : String) : Nat :=
  (getKey s.uploads (uploadsKey today)).getD 0

/-- `check_free_limit()` (app.py lines 74-79): initialise the key to 0 when
absent, then return `session[key] < FREE_LIMIT_PER_DAY`.  Returns the updated
session together with the boolean. -/
def check_free_limit (s : Session) (today : String) : Session × Bool :=
  let key := uploadsKey today
  let s1 := match getKey s.uploads key with
    | none => s.withKey key 0
    | some _ => s
  (s1, decide ((getKey s1.uploads key).getD 0 < FREE_LIMIT_PER_DAY))

/-- `increment_upload_count()` (app.py lines 82-85):
`session[key] = session.get(key, 0) + 1`. -/
def increment_upload_count (s : Session) (today : String) : Session :=
  let key := uploadsKey today
  s.withKey key ((getKey s.uploads key).getD 0 + 1)

/-! ### Path helpers (`os.path`) -/

/-- Index of the last occurrence of `c` in `cs`, if any. -/
def lastIndexOf (cs : List Char) (c : Char) : Option Nat :=
  match cs.reverse.findIdx? (fun x => x = c) with
  | none => none
  | some i => some (cs.length - 1 - i)

/-- `os.path.basename`: the text after the last `/`. -/
def pyBasename (p : String) : String :=
  String.mk ((splitOnChar '/' p.data).getLastD [])

/-- `os.path.splitext(p)[0]`: everything before the extension dot.  Following
CPython, the extension starts at the last dot, provided some earlier character
of the basename is not a dot (so `".bashrc"` has no extension). -/
def pySplitextRoot (p : String) : String :=
  let cs := p.data
  let base : Nat := match lastIndexOf cs '/' with
    | none => 0
    | some i => i + 1
  match lastIndexOf cs '.' with
  | none => p
  | some dotIdx =>
    if base ≤ dotIdx ∧ ((cs.drop base).take (dotIdx - base)).any (fun x => x ≠ '.') then
      String.mk (cs.take dotIdx)
    else p

/-! ### The `/compressor` POST handler (app.py lines 133-205) -/

/-- The PIL image library, abstracted: `openImg` models `Image.open` (`none` =
raises, e.g. the content is not a decodable image), `saveImg` models
`image.save(path, FORMAT)` giving the re-encoded bytes (`none` = raises, e.g.
unknown format). -/
structure PIL (Img : Type) where
  openImg : Bytes → Option Img
  saveImg : Img → String → Option Bytes

/-- One uploaded file of the multipart form: its client-supplied filename and
its content. -/
structure UploadedFile where
  filename : String
  content : Bytes
deriving DecidableEq

/-- The POST body of `/compressor`: `request.files.getlist("files")` and
`request.form.get("format")` (absent = `none`). -/
structure UploadRequest where
  files : List UploadedFile
  format_option : Option String
deriving DecidableEq

/-- Sum of the uploaded files' sizes (app.py lines 150-154: `file.tell()` after
seeking to the end is the byte length). -/
def totalSize (files : List UploadedFile) : Nat :=
  (files.map (fun f => f.content.length)).sum

/-- `PREMIUM_SIZE_LIMIT if is_premium else FREE_SIZE_LIMIT` (app.py line 156). -/
def sizeLimitFor (s : Session) : Nat :=
  if s.premium then PREMIUM_SIZE_LIMIT else FREE_SIZE_LIMIT

/-- The messages `flash`ed by the POST handler, one constructor per `flash`
call site (app.py lines 146, 158, 164, 172, 187). -/
inductive Flash where
  | selectAtLeastOne : Flash
  | sizeExceeds (total limit : Nat) : Flash
  | freeLimitReached : Flash
  | notAllowed (filename : String) : Flash
  | couldNotConvert (filename : String) : Flash
deriving DecidableEq

/-- The observable response of the POST handler: redirect back to the form,
redirect to `/premium`, the ZIP attachment (list of arcname/content entries in
order), or an unhandled exception (HTTP 500). -/
inductive PostResult where
  | redirectBack : PostResult
  | redirectPremium : PostResult
  | zipFile (entries : List (String × Bytes)) : PostResult
  | serverError : PostResult
deriving DecidableEq

/-- `if format_option and format_option != "none"` (app.py line 179): a
present, non-empty string other than `"none"`. -/
def conversionRequested (fmtOpt : Option String) : Bool :=
  match fmtOpt with
  | none => false
  | some fmt => !(fmt = "") && !(fmt = "none")

/-- The body of the ZIP loop for one file (app.py lines 170-191).  Result:
flashes, and either `Except.error ()` — the unhandled `FileNotFoundError`
raised by `zipf.write` when conversion produced `new_path == file_path` (the
converted file was just deleted by `os.remove`) — or the optional archive
entry (`none` = extension not allowed, file skipped). -/
def processOne {Img : Type} (pil : PIL Img) (fmtOpt : Option String)
    (f : UploadedFile) : List Flash × Except Unit (Option (String × Bytes)) :=
  if allowed_file f.filename then
    let file_path := "uploads/" ++ f.filename
    match fmtOpt with
    | some fmt =>
      if !(fmt = "") && !(fmt = "none") then
        match pil.openImg f.content with
        | some img =>
          let new_path := pySplitextRoot file_path ++ "." ++ fmt
          match pil.saveImg img (upperStr fmt) with
          | some converted =>
            if new_path = file_path then
              ([], Except.error ())
            else
              ([], Except.ok (some (pyBasename new_path, converted)))
          | none =>
            ([Flash.couldNotConvert f.filename],
             Except.ok (some (pyBasename file_path, f.content)))
        | none =>
          ([Flash.couldNotConvert f.filename],
           Except.ok (some (pyBasename file_path, f.content)))
      else ([], Except.ok (some (pyBasename file_path, f.content)))
    | none => ([], Except.ok (some (pyBasename file_path, f.content)))
  else ([Flash.notAllowed f.filename], Except.ok none)

/-- The ZIP loop (app.py lines 169-191): process the files in order,
accumulating flashes and entries; an exception aborts the loop (and the
request) keeping the flashes already recorded. -/
def buildZip {Img : Type} (pil : PIL Img) (fmtOpt : Option String) :
    List UploadedFile → List Flash × Except Unit (List (String × Bytes))
  | [] => ([], Except.ok [])
  | f :: rest =>
    match processOne pil fmtOpt f with
    | (fl, Except.error e) => (fl, Except.error e)
    | (fl, Except.ok none) =>
      let r := buildZip pil fmtOpt rest
      (fl ++ r.1, r.2)
    | (fl, Except.ok (some entry)) =>
      let r := buildZip pil fmtOpt rest
      (fl ++ r.1, r.2.map (fun es => entry :: es))

/-- What a POST to `/compressor` leaves behind: the updated session, the
flashed messages, and the HTTP response. -/
structure PostOutcome where
  newSession : Session
  flashes : List Flash
  response : PostResult
deriving DecidableEq

/-- The POST branch of `compressor()` (app.py lines 140-205), translated
clause by clause: empty-selection check, total-size check against the tier
limit, free-quota check (`check_free_limit` is only called when not premium,
by Python's short-circuit `and`), the ZIP loop, and the final increment of the
daily counter (non-premium only) before the ZIP is sent. -/
def compressorPost {Img : Type} (pil : PIL Img) (today : String) (s : Session)
    (req : UploadRequest) : PostOutcome :=
  let is_premium := s.premium
  if req.files.isEmpty then
    ⟨s, [Flash.selectAtLeastOne], PostResult.redirectBack⟩
  else
    let total_size := totalSize req.files
    let size_limit := sizeLimitFor s
    if size_limit < total_size then
      ⟨s, [Flash.sizeExceeds total_size size_limit], PostResult.redirectBack⟩
    else
      let quotaCheck : Session × Bool :=
        if is_premium then (s, true) else check_free_limit s today
      if quotaCheck.2 = false then
        ⟨quotaCheck.1, [Flash.freeLimitReached], PostResult.redirectPremium⟩
      else
        match buildZip pil req.format_option req.files with
        | (fl, Except.error _) => ⟨quotaCheck.1, fl, PostResult.serverError⟩
        | (fl, Except.ok entries) =>
          let s2 := if is_premium then quotaCheck.1
                    else increment_upload_count quotaCheck.1 today
          ⟨s2, fl, PostResult.zipFile entries⟩

/-! ### The other routes and the checkout initiator -/

/-- `success_premium()` (app.py lines 245-248): set the premium flag. -/
def successPremium (s : Session) : Session := ⟨true, s.uploads⟩

/-- The fixed Stripe line item of each checkout route: currency, product name,
unit amount, quantity. -/
structure LineItem where
  currency : String
  productName : String
  unitAmount : Nat
  quantity : Nat
deriving DecidableEq

/-- The donation line item (app.py lines 111-118). -/
def donationLineItem : LineItem := ⟨"usd", "Donación al creador del CV Virtual", 500, 1⟩

/-- The premium line item (app.py lines 228-235). -/
def premiumLineItem : LineItem := ⟨"usd", "Compresor Premium", 900, 1⟩

/-- Response of a checkout route: HTTP 303 redirect to the provider URL, or
the raw exception text as the body. -/
inductive CheckoutResponse where
  | redirect303 (url : String) : CheckoutResponse
  | errorText (msg : String) : CheckoutResponse
deriving DecidableEq

/-- `create_checkout_session()` (app.py lines 106-125).  The Stripe SDK call
is the parameter `stripeCreate`: `Except.ok url` models a successful
`Session.create` (with `url` the hosted checkout URL), `Except.error e` models
a raised exception with text `e`. -/
def create_checkout_session (stripeCreate : LineItem → Except String String) :
    CheckoutResponse :=
  match stripeCreate donationLineItem with
  | Except.ok url => CheckoutResponse.redirect303 url
  | Except.error e => CheckoutResponse.errorText e

/-- `create_premium_session()` (app.py lines 223-242), same shape with the
premium line item. -/
def create_premium_session (stripeCreate : LineItem → Except String String) :
    CheckoutResponse :=
  match stripeCreate premiumLineItem with
  | Except.ok url => CheckoutResponse.redirect303 url
  | Except.error e => CheckoutResponse.errorText e

/-- One HTTP call to the application, with the data each route consumes. -/
inductive RouteCall (Img : Type) where
  | home : RouteCall Img
  | donate : RouteCall Img
  | createCheckout (stripeResult : Except String String) : RouteCall Img
  | successDonation : RouteCall Img
  | compressorGet : RouteCall Img
  | compressorPostCall (pil : PIL Img) (today : String) (req : UploadRequest) : RouteCall Img
  | premiumPage : RouteCall Img
  | createPremiumCall (stripeResult : Except String String) : RouteCall Img
  | successPremiumCall : RouteCall Img
  | privacyPolicy : RouteCall Img
  | dataDeletion : RouteCall Img

/-- The session after a route call.  Only the POST branch of `compressor()`
and `success_premium()` write to the session; every other route only renders
a template or redirects. -/
def routeSession {Img : Type} (c : RouteCall Img) (s : Session) : Session :=
  match c with
  | RouteCall.compressorPostCall pil today req => (compressorPost pil today s req).newSession
  | RouteCall.successPremiumCall => successPremium s
  | _ => s

/-! ### Spec-side description of an archive entry -/

/-- Outcome of attempting the requested conversion on a file's content:
decoded and re-encoded bytes, or `none` when decoding or encoding raises. -/
def conversionResult {Img : Type} (pil : PIL Img) (fmt : String) (content : Bytes) :
    Option Bytes :=
  match pil.openImg content with
  | none => none
  | some img => pil.saveImg img (upperStr fmt)

/-- The archive entry the specification predicts for a validated file: when a
conversion was requested and succeeded, the renamed entry with the re-encoded
content; otherwise (no conversion requested, or decode/encode failure) the
original base filename with the original content. -/
def archivedEntry {Img : Type} (pil : PIL Img) (fmtOpt : Option String)
    (f : UploadedFile) : String × Bytes :=
  let file_path := "uploads/" ++ f.filename
  match fmtOpt with
  | some fmt =>
    if !(fmt = "") && !(fmt = "none") then
      match conversionResult pil fmt f.content with
      | some converted => (pyBasename (pySplitextRoot file_path ++ "." ++ fmt), converted)
      | none => (pyBasename file_path, f.content)
    else (pyBasename file_path, f.content)
  | none => (pyBasename file_path, f.content)

/-! ### A concrete image library for witnesses and counterexamples -/

/-- A toy decoded image: just its pixel bytes. -/
structure TestImg where
  pixels : Bytes
deriving DecidableEq

/-- The PNG signature bytes. -/
def pngMagic : Bytes := [137, 80, 78, 71]

/-- A concrete instance of the image-library interface: PNG-tagged byte
strings decode, everything else raises; saving tags the pixels with the
target format's signature, unknown formats raise. -/
def testPIL : PIL TestImg where
  openImg := fun c => if c.take 4 = pngMagic then some ⟨c.drop 4⟩ else none
  saveImg := fun img fmt =>
    if fmt = "JPEG" then some ([255, 216] ++ img.pixels)
    else if fmt = "PNG" then some (pngMagic ++ img.pixels)
    else if fmt = "GIF" then some ([71, 73, 70] ++ img.pixels)
    else none

/-! ### Session lemmas -/

theorem getKey_setKey (l : List (String × Nat)) (k : String) (v : Nat) (q : String) :
    getKey (setKey l k v) q = if k = q then some v else getKey l q := by
  induction l with
  | nil => by_cases h : k = q <;> simp [setKey, getKey, h]
  | cons p rest ih =>
    obtain ⟨k0, v0⟩ := p
    by_cases h0 : k0 = k
    · subst h0
      by_cases hq : k0 = q <;> simp [setKey, getKey, hq]
    · by_cases hq : k0 = q
      · subst hq
        have hk : ¬ (k = k0) := fun h => h0 h.symm
        simp [setKey, getKey, h0, hk]
      · simp [setKey, getKey, h0, hq, ih]

theorem uploadCount_withKey (s : Session) (k : String) (v : Nat) (d : String) :
    uploadCount (s.withKey k v) d =
      if k = uploadsKey d then v else uploadCount s d := by
  unfold uploadCount Session.withKey
  by_cases h : k = uploadsKey d <;> simp [getKey_setKey, h]

theorem check_free_limit_premium (s : Session) (today : String) :
    ((check_free_limit s today).1).premium = s.premium := by
  unfold check_free_limit
  cases h : getKey s.uploads (uploadsKey today) <;> simp [h, Session.withKey]

theorem uploadCount_check_free_limit (s : Session) (today d : String) :
    uploadCount (check_free_limit s today).1 d = uploadCount s d := by
  unfold check_free_limit
  cases h : getKey s.uploads (uploadsKey today) with
  | none =>
    simp only [h, uploadCount_withKey]
    by_cases hk : uploadsKey today = uploadsKey d
    · rw [if_pos hk]
      unfold uploadCount
      rw [← hk, h]
      rfl
    · rw [if_neg hk]
  | some n => simp [h]

theorem check_free_limit_snd (s : Session) (today : String) :
    (check_free_limit s today).2 =
      decide (uploadCount s today < FREE_LIMIT_PER_DAY) := by
  unfold check_free_limit uploadCount
  cases h : getKey s.uploads (uploadsKey today) with
  | none => simp [h, Session.withKey, getKey_setKey]
  | some n => simp [h]

theorem uploadCount_increment (s : Session) (today d : String) :
    uploadCount (increment_upload_count s today) d =
      if uploadsKey today = uploadsKey d then uploadCount s d + 1
      else uploadCount s d := by
  unfold increment_upload_count
  rw [uploadCount_withKey]
  by_cases hk : uploadsKey today = uploadsKey d
  · rw [if_pos hk, if_pos hk]
    unfold uploadCount
    rw [hk]
  · rw [if_neg hk, if_neg hk]

theorem increment_premium (s : Session) (today : String) :
    (increment_upload_count s today).premium = s.premium := rfl

/-! ### ZIP-loop lemmas -/

theorem processOne_classify {Img : Type} (pil : PIL Img) (fmtOpt : Option String)
    (f : UploadedFile) :
    (allowed_file f.filename = false ∧
       processOne pil fmtOpt f = ([Flash.notAllowed f.filename], Except.ok none)) ∨
    (allowed_file f.filename = true ∧
       (processOne pil fmtOpt f).2 = Except.error ()) ∨
    (allowed_file f.filename = true ∧
       (processOne pil fmtOpt f).2 = Except.ok (some (archivedEntry pil fmtOpt f))) := by
  by_cases ha : allowed_file f.filename
  · unfold processOne archivedEntry conversionResult
    cases fmtOpt with
    | none =>
      right; right
      exact ⟨ha, by simp [ha]⟩
    | some fmt =>
      by_cases hc : (!(fmt = "") && !(fmt = "none")) = true
      · cases hop : pil.openImg f.content with
        | none =>
          right; right
          exact ⟨ha, by simp [ha, hc, hop]⟩
        | some img =>
          cases hsv : pil.saveImg img (upperStr fmt) with
          | none =>
            right; right
            exact ⟨ha, by simp [ha, hc, hop, hsv]⟩
          | some conv =>
            by_cases hp : pySplitextRoot ("uploads/" ++ f.filename) ++ "." ++ fmt
                = "uploads/" ++ f.filename
            · right; left
              exact ⟨ha, by simp [ha, hc, hop, hsv, hp]⟩
            · right; right
              exact ⟨ha, by simp [ha, hc, hop, hsv, hp]⟩
      · right; right
        exact ⟨ha, by simp [ha, hc]⟩
  · left
    refine ⟨by simpa using ha, ?_⟩
    unfold processOne
    simp [ha]

theorem buildZip_ok {Img : Type} (pil : PIL Img) (fmtOpt : Option String) :
    ∀ (files : List UploadedFile) (fl : List Flash) (entries : List (String × Bytes)),
      buildZip pil fmtOpt files = (fl, Except.ok entries) →
      entries = (files.filter (fun f => allowed_file f.filename)).map
        (archivedEntry pil fmtOpt) := by
  intro files
  induction files with
  | nil =>
    intro fl entries h
    unfold buildZip at h
    simp at h
    simp [h]
  | cons f rest ih =>
    intro fl entries h
    unfold buildZip at h
    rcases processOne_classify pil fmtOpt f with ⟨ha, heq⟩ | ⟨ha, hsnd⟩ | ⟨ha, hsnd⟩
    · rw [heq] at h
      simp only at h
      rcases hb : buildZip pil fmtOpt rest with ⟨fl1, r1⟩
      rw [hb] at h
      cases r1 with
      | error e => simp at h
      | ok es =>
        simp at h
        rw [List.filter_cons_of_neg (by simp [ha])]
        rw [← h.2]
        exact ih fl1 es hb
    · rcases hp : processOne pil fmtOpt f with ⟨fl0, r0⟩
      rw [hp] at h hsnd
      simp at hsnd
      rw [hsnd] at h
      simp at h
    · rcases hp : processOne pil fmtOpt f with ⟨fl0, r0⟩
      rw [hp] at h hsnd
      simp at hsnd
      rw [hsnd] at h
      rcases hb : buildZip pil fmtOpt rest with ⟨fl1, r1⟩
      rw [hb] at h
      cases r1 with
      | error e => simp [Except.map] at h
      | ok es =>
        simp [Except.map] at h
        rw [List.filter_cons_of_pos (by simp [ha])]
        simp only [List.map_cons]
        rw [← h.2]
        exact congrArg _ (ih fl1 es hb)

/-! ### Structural lemmas about the POST handler -/

theorem compressorPost_premium {Img : Type} (pil : PIL Img) (today : String)
    (s : Session) (req : UploadRequest) :
    (compressorPost pil today s req).newSession.premium = s.premium := by
  unfold compressorPost
  by_cases h1 : req.files.isEmpty
  · simp [h1]
  · simp only [h1, Bool.false_eq_true, if_false]
    by_cases h2 : sizeLimitFor s < totalSize req.files
    · simp [h2]
    · simp only [h2, if_false]
      by_cases hp : s.premium
      · simp only [hp, if_true]
        rcases hb : buildZip pil req.format_option req.files with ⟨fl, r⟩
        cases r <;> simp [hb, hp]
      · simp only [hp, Bool.false_eq_true, if_false]
        by_cases hq : (check_free_limit s today).2 = false
        · simp [hp, hq, check_free_limit_premium]
        · simp only [hq, if_false]
          rcases hb : buildZip pil req.format_option req.files with ⟨fl, r⟩
          cases r <;>
            simp [hb, hp, increment_premium, check_free_limit_premium]

theorem uploadCount_key_congr (s : Session) (a b : String)
    (h : uploadsKey a = uploadsKey b) : uploadCount s a = uploadCount s b := by
  unfold uploadCount
  rw [h]

theorem compressorPost_not_zip_counts {Img : Type} (pil : PIL Img) (today : String)
    (s : Session) (req : UploadRequest)
    (h : ∀ es, (compressorPost pil today s req).response ≠ PostResult.zipFile es)
    (d : String) :
    uploadCount (compressorPost pil today s req).newSession d = uploadCount s d := by
  unfold compressorPost at h ⊢
  by_cases h1 : req.files.isEmpty
  · simp [h1]
  · simp only [h1, Bool.false_eq_true, if_false] at h ⊢
    by_cases h2 : sizeLimitFor s < totalSize req.files
    · simp [h2]
    · simp only [h2, if_false] at h ⊢
      by_cases hp : s.premium
      · simp only [hp, if_true] at h ⊢
        rcases hb : buildZip pil req.format_option req.files with ⟨fl, r⟩
        rw [hb] at h
        cases r with
        | error e => simp
        | ok es => exact False.elim (by simpa using h es)
      · simp only [hp, Bool.false_eq_true, if_false] at h ⊢
        by_cases hq : (check_free_limit s today).2 = false
        · simp [hq, uploadCount_check_free_limit]
        · simp only [hq, if_false] at h ⊢
          rcases hb : buildZip pil req.format_option req.files with ⟨fl, r⟩
          rw [hb] at h
          cases r with
          | error e => simp [uploadCount_check_free_limit]
          | ok es => exact False.elim (by simpa using h es)

theorem compressorPost_zip_counts {Img : Type} (pil : PIL Img) (today : String)
    (s : Session) (req : UploadRequest) (es : List (String × Bytes))
    (h : (compressorPost pil today s req).response = PostResult.zipFile es)
    (d : String) :
    uploadCount (compressorPost pil today s req).newSession d =
      if s.premium = false ∧ uploadsKey today = uploadsKey d
      then uploadCount s d + 1 else uploadCount s d := by
  unfold compressorPost at h ⊢
  by_cases h1 : req.files.isEmpty
  · simp [h1] at h
  · simp only [h1, Bool.false_eq_true, if_false] at h ⊢
    by_cases h2 : sizeLimitFor s < totalSize req.files
    · simp [h2] at h
    · simp only [h2, if_false] at h ⊢
      by_cases hp : s.premium
      · simp only [hp, if_true] at h ⊢
        rcases hb : buildZip pil req.format_option req.files with ⟨fl, r⟩
        rw [hb] at h
        cases r with
        | error e => simp at h
        | ok es2 => simp [hp]
      · simp only [hp, Bool.false_eq_true, if_false] at h ⊢
        by_cases hq : (check_free_limit s today).2 = false
        · simp [hq] at h
        · simp only [hq, if_false] at h ⊢
          rcases hb : buildZip pil req.format_option req.files with ⟨fl, r⟩
          rw [hb] at h
          cases r with
          | error e => simp at h
          | ok es2 =>
            by_cases hk : uploadsKey today = uploadsKey d <;>
              simp [uploadCount_increment, uploadCount_check_free_limit, hk]

theorem compressorPost_zip_quota {Img : Type} (pil : PIL Img) (today : String)
    (s : Session) (req : UploadRequest) (es : List (String × Bytes))
    (h : (compressorPost pil today s req).response = PostResult.zipFile es)
    (hp : s.premium = false) :
    uploadCount s today < FREE_LIMIT_PER_DAY := by
  unfold compressorPost at h
  by_cases h1 : req.files.isEmpty
  · simp [h1] at h
  · simp only [h1, Bool.false_eq_true, if_false] at h
    by_cases h2 : sizeLimitFor s < totalSize req.files
    · simp [h2] at h
    · simp only [h2, if_false] at h
      simp only [hp, Bool.false_eq_true, if_false] at h
      by_cases hq : (check_free_limit s today).2 = false
      · simp [hq] at h
      · have := check_free_limit_snd s today
        rw [Bool.not_eq_false] at hq
        rw [hq] at this
        simpa using this.symm

theorem compressorPost_premium_session {Img : Type} (pil : PIL Img)
    (today : String) (s : Session) (req : UploadRequest)
    (hp : s.premium = true) :
    (compressorPost pil today s req).newSession = s ∧
    (compressorPost pil today s req).response ≠ PostResult.redirectPremium := by
  unfold compressorPost
  by_cases h1 : req.files.isEmpty
  · simp [h1]
  · simp only [h1, Bool.false_eq_true, if_false]
    by_cases h2 : sizeLimitFor s < totalSize req.files
    · simp [h2]
    · simp only [h2, if_false, hp, if_true]
      rcases hb : buildZip pil req.format_option req.files with ⟨fl, r⟩
      cases r <;> simp

/-! ## The claims -/

/-- C4: a POST to `/compressor` whose batch's total byte size exceeds the
ceiling of the caller's tier at request start (2 MiB when the session's
premium flag is false, 50 MiB when it is true) is rejected: the session is
unchanged, the size message is flashed, and the response is the redirect back
to the form — in particular no archive is produced. -/
theorem claim4_size_over_ceiling {Img : Type} (pil : PIL Img) (today : String)
    (s : Session) (req : UploadRequest)
    (h : (if s.premium then 50 * 1024 * 1024 else 2 * 1024 * 1024) < totalSize req.files) :
    compressorPost pil today s req =
      ⟨s, [Flash.sizeExceeds (totalSize req.files) (sizeLimitFor s)],
        PostResult.redirectBack⟩ := by
  have hsz : sizeLimitFor s < totalSize req.files := by
    simpa [sizeLimitFor, PREMIUM_SIZE_LIMIT, FREE_SIZE_LIMIT] using h
  have hne : req.files.isEmpty = false := by
    cases hf : req.files with
    | nil =>
      rw [hf] at h
      simp [totalSize] at h
    | cons a l => simp [hf]
  unfold compressorPost
  simp [hne, hsz]

/-- A 2 MiB + 1 byte upload, for the C4 witness. -/
def bigFile : UploadedFile := ⟨"big.png", List.replicate (2 * 1024 * 1024 + 1) 0⟩

theorem bigFile_total : totalSize [bigFile] = 2 * 1024 * 1024 + 1 := by
  show (List.map (fun f => f.content.length) [bigFile]).sum = 2 * 1024 * 1024 + 1
  rw [List.map_cons, List.map_nil, List.sum_cons, List.sum_nil,
    show bigFile.content = List.replicate (2 * 1024 * 1024 + 1) 0 from rfl,
    List.length_replicate, Nat.add_zero]

/-- Witness for C4: a fresh free session uploading 2 MiB + 1 bytes is
rejected with the size message. -/
theorem claim4_witness :
    compressorPost testPIL "2026-10-12" Session.init ⟨[bigFile], some "none"⟩ =
      ⟨Session.init,
        [Flash.sizeExceeds (totalSize [bigFile]) (sizeLimitFor Session.init)],
        PostResult.redirectBack⟩ :=
  claim4_size_over_ceiling testPIL "2026-10-12" Session.init ⟨[bigFile], some "none"⟩
    (by rw [bigFile_total]
        show (if Session.init.premium then 50 * 1024 * 1024 else 2 * 1024 * 1024) <
          2 * 1024 * 1024 + 1
        decide)

/-- C7: `check_free_limit` returns true exactly when the session's counter for
today (absent counting as 0) is strictly below 2; `increment_upload_count`
adds 1 to that counter with default 0; and for a premium caller the POST
handler neither consults nor performs them — the session's counters are left
untouched and the quota redirect never happens. -/
theorem claim7_quota_operations :
    (∀ (s : Session) (d : String),
        (check_free_limit s d).2 = decide (uploadCount s d < 2)) ∧
    (∀ (s : Session) (d : String),
        uploadCount (increment_upload_count s d) d = uploadCount s d + 1) ∧
    (∀ {Img : Type} (pil : PIL Img) (today : String) (s : Session)
        (req : UploadRequest), s.premium = true →
        (compressorPost pil today s req).newSession.uploads = s.uploads ∧
        (compressorPost pil today s req).response ≠ PostResult.redirectPremium) := by
  refine ⟨?_, ?_, ?_⟩
  · intro s d
    simpa [FREE_LIMIT_PER_DAY] using check_free_limit_snd s d
  · intro s d
    simp [uploadCount_increment]
  · intro Img pil today s req hp
    have h := compressorPost_premium_session pil today s req hp
    exact ⟨by rw [h.1], h.2⟩

/-- Witness for C7's premium clause at a concrete premium session. -/
theorem claim7_witness :
    (compressorPost testPIL "2026-10-12" ⟨true, [("uploads_2026-10-11", 2)]⟩
        ⟨[⟨"cv.png", [1]⟩], some "none"⟩).newSession.uploads =
      [("uploads_2026-10-11", 2)] ∧
    (compressorPost testPIL "2026-10-12" ⟨true, [("uploads_2026-10-11", 2)]⟩
        ⟨[⟨"cv.png", [1]⟩], some "none"⟩).response ≠ PostResult.redirectPremium :=
  claim7_quota_operations.2.2 testPIL "2026-10-12" ⟨true, [("uploads_2026-10-11", 2)]⟩
    ⟨[⟨"cv.png", [1]⟩], some "none"⟩ rfl

/-- C8: for each checkout route, a successful provider call yields the HTTP
303 redirect to the provider-hosted URL, and a raised provider error yields
the raw error text as the response body. -/
theorem claim8_checkout_responses (stripeCreate : LineItem → Except String String) :
    (∀ url, stripeCreate donationLineItem = Except.ok url →
        create_checkout_session stripeCreate = CheckoutResponse.redirect303 url) ∧
    (∀ e, stripeCreate donationLineItem = Except.error e →
        create_checkout_session stripeCreate = CheckoutResponse.errorText e) ∧
    (∀ url, stripeCreate premiumLineItem = Except.ok url →
        create_premium_session stripeCreate = CheckoutResponse.redirect303 url) ∧
    (∀ e, stripeCreate premiumLineItem = Except.error e →
        create_premium_session stripeCreate = CheckoutResponse.errorText e) := by
  refine ⟨?_, ?_, ?_, ?_⟩ <;> intro x hx <;>
    simp [create_checkout_session, create_premium_session, hx]

/-- Witness for C8: a provider that accepts the donation item and raises on
the premium item produces the redirect and the raw error text respectively. -/
theorem claim8_witness :
    create_checkout_session
        (fun li => if li = donationLineItem
          then Except.ok "https://pay.example/d" else Except.error "boom") =
      CheckoutResponse.redirect303 "https://pay.example/d" ∧
    create_premium_session
        (fun li => if li = donationLineItem
          then Except.ok "https://pay.example/d" else Except.error "boom") =
      CheckoutResponse.errorText "boom" :=
  ⟨(claim8_checkout_responses _).1 "https://pay.example/d" (by simp),
   (claim8_checkout_responses _).2.2.2 "boom" (by simp [premiumLineItem, donationLineItem])⟩

/-- C10: no operation of the application resets the premium flag: for every
route, if the session's premium flag is true before the request it is true
after it. -/
theorem claim10_premium_persists {Img : Type} (c : RouteCall Img) (s : Session)
    (h : s.premium = true) : (routeSession c s).premium = true := by
  cases c <;>
    simp [routeSession, successPremium, compressorPost_premium, h]

/-- Witness for C10: a premium session stays premium across a concrete
`/compressor` POST. -/
theorem claim10_witness :
    (routeSession (RouteCall.compressorPostCall testPIL "2026-10-12"
        ⟨[⟨"cv.png", [1, 2]⟩], some "jpeg"⟩) ⟨true, []⟩).premium = true :=
  claim10_premium_persists _ ⟨true, []⟩ rfl

theorem routeSession_count_le {Img : Type} (c : RouteCall Img) (s : Session)
    (d : String) (h : uploadCount s d ≤ 2) :
    uploadCount (routeSession c s) d ≤ 2 := by
  cases c with
  | compressorPostCall pil today req =>
    show uploadCount (compressorPost pil today s req).newSession d ≤ 2
    rcases hr : (compressorPost pil today s req).response with _ | _ | es | _
    · rw [compressorPost_not_zip_counts pil today s req
        (fun es2 => by rw [hr]; simp) d]
      exact h
    · rw [compressorPost_not_zip_counts pil today s req
        (fun es2 => by rw [hr]; simp) d]
      exact h
    · rw [compressorPost_zip_counts pil today s req es hr d]
      by_cases hc : s.premium = false ∧ uploadsKey today = uploadsKey d
      · rw [if_pos hc]
        have h2 : uploadCount s today < 2 := by
          simpa [FREE_LIMIT_PER_DAY] using
            compressorPost_zip_quota pil today s req es hr hc.1
        have h3 : uploadCount s today = uploadCount s d :=
          uploadCount_key_congr s today d hc.2
        omega
      · rw [if_neg hc]
        exact h
    · rw [compressorPost_not_zip_counts pil today s req
        (fun es2 => by rw [hr]; simp) d]
      exact h
  | successPremiumCall => exact h
  | home => exact h
  | donate => exact h
  | createCheckout r => exact h
  | successDonation => exact h
  | compressorGet => exact h
  | premiumPage => exact h
  | createPremiumCall r => exact h
  | privacyPolicy => exact h
  | dataDeletion => exact h

/-- C3: starting from a fresh session, after any sequence of requests the
quota counter of every calendar date is at most 2 — the counter is never
incremented more than twice per date.  And for a non-premium session whose
counter for today already stands at 2, the next upload attempt (non-empty,
within the size limit) is rejected with the quota message and redirected to
the premium page, its counter staying at 2. -/
theorem claim3_daily_limit :
    (∀ {Img : Type} (calls : List (RouteCall Img)) (d : String),
        uploadCount (calls.foldl (fun s c => routeSession c s) Session.init) d ≤ 2) ∧
    (∀ {Img : Type} (pil : PIL Img) (today : String) (s : Session)
        (req : UploadRequest),
        s.premium = false → uploadCount s today = 2 →
        req.files ≠ [] → totalSize req.files ≤ 2 * 1024 * 1024 →
        (compressorPost pil today s req).response = PostResult.redirectPremium ∧
        (compressorPost pil today s req).flashes = [Flash.freeLimitReached] ∧
        uploadCount (compressorPost pil today s req).newSession today = 2) := by
  constructor
  · intro Img calls d
    have step : ∀ (init : Session), uploadCount init d ≤ 2 →
        uploadCount (calls.foldl (fun s c => routeSession c s) init) d ≤ 2 := by
      induction calls with
      | nil => intro init h; exact h
      | cons c rest ih =>
        intro init h
        exact ih _ (routeSession_count_le c init d h)
    exact step Session.init (by show (0 : Nat) ≤ 2; decide)
  · intro Img pil today s req hp hc hne hsz
    have h1 : req.files.isEmpty = false := by
      cases hf : req.files with
      | nil => exact absurd hf hne
      | cons a l => simp [hf]
    have h2 : ¬ sizeLimitFor s < totalSize req.files := by
      simp only [sizeLimitFor, hp, Bool.false_eq_true, if_false]
      exact not_lt.mpr hsz
    have hq : (check_free_limit s today).2 = false := by
      rw [check_free_limit_snd, hc]
      simp [FREE_LIMIT_PER_DAY]
    unfold compressorPost
    simp only [h1, Bool.false_eq_true, if_false, h2, if_true, hp,
      hq]
    simp [uploadCount_check_free_limit, hc]

/-- Witness for C3's rejection clause: a free session with today's counter at
2 has its third same-day attempt redirected to the premium page. -/
theorem claim3_witness :
    (compressorPost testPIL "2026-10-12" ⟨false, [("uploads_2026-10-12", 2)]⟩
        ⟨[⟨"cv.png", [1, 2]⟩], some "none"⟩).response = PostResult.redirectPremium ∧
    (compressorPost testPIL "2026-10-12" ⟨false, [("uploads_2026-10-12", 2)]⟩
        ⟨[⟨"cv.png", [1, 2]⟩], some "none"⟩).flashes = [Flash.freeLimitReached] ∧
    uploadCount (compressorPost testPIL "2026-10-12"
        ⟨false, [("uploads_2026-10-12", 2)]⟩
        ⟨[⟨"cv.png", [1, 2]⟩], some "none"⟩).newSession "2026-10-12" = 2 :=
  claim3_daily_limit.2 testPIL "2026-10-12" ⟨false, [("uploads_2026-10-12", 2)]⟩
    ⟨[⟨"cv.png", [1, 2]⟩], some "none"⟩ rfl (by decide) (by decide) (by decide)

/-- C5: after `/success-premium` is visited, the session's premium flag is
true and the size ceiling used by the next `/compressor` POST is 50 MiB, not
2 MiB: a batch over 2 MiB but within 50 MiB is no longer rejected for size
(nor for quota). -/
theorem claim5_premium_ceiling {Img : Type} (pil : PIL Img) (today : String)
    (s : Session) (req : UploadRequest) :
    (successPremium s).premium = true ∧
    sizeLimitFor (successPremium s) = 50 * 1024 * 1024 ∧
    (2 * 1024 * 1024 < totalSize req.files →
     totalSize req.files ≤ 50 * 1024 * 1024 →
      (compressorPost pil today (successPremium s) req).response ≠
          PostResult.redirectBack ∧
      (compressorPost pil today (successPremium s) req).response ≠
          PostResult.redirectPremium) := by
  refine ⟨rfl, by simp [sizeLimitFor, successPremium, PREMIUM_SIZE_LIMIT], ?_⟩
  intro hlo hhi
  have h1 : req.files.isEmpty = false := by
    cases hf : req.files with
    | nil =>
      rw [hf] at hlo
      simp [totalSize] at hlo
    | cons a l => simp [hf]
  have h2 : ¬ sizeLimitFor (successPremium s) < totalSize req.files := by
    simp only [sizeLimitFor, successPremium, if_true, PREMIUM_SIZE_LIMIT]
    exact not_lt.mpr hhi
  unfold compressorPost
  simp only [h1, Bool.false_eq_true, if_false, h2, if_true]
  rcases hb : buildZip pil req.format_option req.files with ⟨fl, r⟩
  cases r <;> simp [successPremium]

/-- Witness for C5: a 3-byte batch against limits scaled down is not
meaningful, so use a 2 MiB + 1 batch: after `/success-premium`, the same
upload that C4 rejects for a free session passes the size gate. -/
theorem claim5_witness :
    ((successPremium Session.init).premium = true) ∧
    sizeLimitFor (successPremium Session.init) = 50 * 1024 * 1024 ∧
    ((compressorPost testPIL "2026-10-12" (successPremium Session.init)
        ⟨[bigFile], some "none"⟩).response ≠ PostResult.redirectBack ∧
     (compressorPost testPIL "2026-10-12" (successPremium Session.init)
        ⟨[bigFile], some "none"⟩).response ≠ PostResult.redirectPremium) :=
  ⟨(claim5_premium_ceiling testPIL "2026-10-12" Session.init
      ⟨[bigFile], some "none"⟩).1,
   (claim5_premium_ceiling testPIL "2026-10-12" Session.init
      ⟨[bigFile], some "none"⟩).2.1,
   (claim5_premium_ceiling testPIL "2026-10-12" Session.init
      ⟨[bigFile], some "none"⟩).2.2
     (by rw [bigFile_total]; decide)
     (by rw [bigFile_total]; decide)⟩

/-- C9: a POST to `/compressor` that is rejected (redirect back or redirect to
premium) leaves every date's quota counter unchanged; a crashed request
(server error) also leaves them unchanged, since the increment happens only
after the archive is built; and on any response the counter grows by at most 1
regardless of how many files the batch contains. -/
theorem claim9_counter_discipline {Img : Type} (pil : PIL Img) (today : String)
    (s : Session) (req : UploadRequest) :
    ((compressorPost pil today s req).response = PostResult.redirectBack ∨
     (compressorPost pil today s req).response = PostResult.redirectPremium ∨
     (compressorPost pil today s req).response = PostResult.serverError →
      ∀ d, uploadCount (compressorPost pil today s req).newSession d =
        uploadCount s d) ∧
    (∀ d, uploadCount (compressorPost pil today s req).newSession d ≤
        uploadCount s d + 1) := by
  constructor
  · intro hres d
    refine compressorPost_not_zip_counts pil today s req (fun es => ?_) d
    rcases hres with hr | hr | hr <;> rw [hr] <;> simp
  · intro d
    rcases hr : (compressorPost pil today s req).response with _ | _ | es | _
    · rw [compressorPost_not_zip_counts pil today s req
        (fun es2 => by rw [hr]; simp) d]
      omega
    · rw [compressorPost_not_zip_counts pil today s req
        (fun es2 => by rw [hr]; simp) d]
      omega
    · rw [compressorPost_zip_counts pil today s req es hr d]
      by_cases hc : s.premium = false ∧ uploadsKey today = uploadsKey d
      · rw [if_pos hc]
      · rw [if_neg hc]
        omega
    · rw [compressorPost_not_zip_counts pil today s req
        (fun es2 => by rw [hr]; simp) d]
      omega

/-- Witness for C9 at a concrete size-rejected request: the counter for today
is unchanged (and the growth bound holds). -/
theorem claim9_witness :
    ((compressorPost testPIL "2026-10-12" Session.init
        ⟨[], some "none"⟩).response = PostResult.redirectBack ∨
     (compressorPost testPIL "2026-10-12" Session.init
        ⟨[], some "none"⟩).response = PostResult.redirectPremium ∨
     (compressorPost testPIL "2026-10-12" Session.init
        ⟨[], some "none"⟩).response = PostResult.serverError) ∧
    uploadCount (compressorPost testPIL "2026-10-12" Session.init
        ⟨[], some "none"⟩).newSession "2026-10-12" =
      uploadCount Session.init "2026-10-12" :=
  ⟨Or.inl (by decide),
   (claim9_counter_discipline testPIL "2026-10-12" Session.init
      ⟨[], some "none"⟩).1 (Or.inl (by decide)) "2026-10-12"⟩

theorem compressorPost_single_ok {Img : Type} (pil : PIL Img) (today : String)
    (s : Session) (f : UploadedFile) (fmtOpt : Option String) (fl : List Flash)
    (entry : String × Bytes)
    (hp : s.premium = false) (hq : uploadCount s today < 2)
    (hsz : f.content.length ≤ 2 * 1024 * 1024)
    (hone : processOne pil fmtOpt f = (fl, Except.ok (some entry))) :
    (compressorPost pil today s ⟨[f], fmtOpt⟩).response =
      PostResult.zipFile [entry] := by
  have h1 : ([f] : List UploadedFile).isEmpty = false := rfl
  have h2 : ¬ sizeLimitFor s < totalSize [f] := by
    simp only [sizeLimitFor, hp, Bool.false_eq_true, if_false]
    have ht : totalSize [f] = f.content.length := by simp [totalSize]
    rw [ht]
    exact not_lt.mpr hsz
  have hqq : ¬ (check_free_limit s today).2 = false := by
    rw [check_free_limit_snd]
    simp [FREE_LIMIT_PER_DAY, hq]
  have hz : buildZip pil fmtOpt [f] = (fl, Except.ok [entry]) := by
    unfold buildZip
    rw [hone]
    simp [buildZip, Except.map]
  unfold compressorPost
  simp only [h1, Bool.false_eq_true, if_false, h2, hp, if_true, hqq, hz]
  rfl

/-- C6: with a conversion to "jpeg" requested, an image input named
`cv.png` that decodes and re-encodes successfully is archived under the name
`cv.jpeg` with the JPEG-encoded content; an input named `doc.pdf` that the
image library cannot decode (with any target format, or none) is archived
byte-identical under its original name. -/
theorem claim6_conversion_behavior {Img : Type} (pil : PIL Img) (today : String)
    (s : Session) :
    (∀ (content : Bytes) (img : Img) (out : Bytes),
      s.premium = false → uploadCount s today < 2 →
      content.length ≤ 2 * 1024 * 1024 →
      pil.openImg content = some img → pil.saveImg img "JPEG" = some out →
      (compressorPost pil today s ⟨[⟨"cv.png", content⟩], some "jpeg"⟩).response =
        PostResult.zipFile [("cv.jpeg", out)]) ∧
    (∀ (content : Bytes) (fmtOpt : Option String),
      s.premium = false → uploadCount s today < 2 →
      content.length ≤ 2 * 1024 * 1024 →
      pil.openImg content = none →
      (compressorPost pil today s ⟨[⟨"doc.pdf", content⟩], fmtOpt⟩).response =
        PostResult.zipFile [("doc.pdf", content)]) := by
  constructor
  · intro content img out hp hq hsz hop hsv
    refine compressorPost_single_ok pil today s ⟨"cv.png", content⟩ (some "jpeg")
      [] ("cv.jpeg", out) hp hq hsz ?_
    have e1 : allowed_file "cv.png" = true := by decide
    have e3 : upperStr "jpeg" = "JPEG" := by decide
    unfold processOne
    simp only [e1, if_true]
    simp only [show (!("jpeg" = "") && !("jpeg" = "none")) = true from by decide,
      if_true, hop, e3, hsv]
    rw [if_neg (show ¬ (pySplitextRoot ("uploads/" ++ "cv.png") ++ "." ++ "jpeg" =
      "uploads/" ++ "cv.png") from by decide)]
    rfl
  · intro content fmtOpt hp hq hsz hop
    have e1 : allowed_file "doc.pdf" = true := by decide
    rcases fmtOpt with _ | fmt
    · refine compressorPost_single_ok pil today s ⟨"doc.pdf", content⟩ none
        [] ("doc.pdf", content) hp hq hsz ?_
      unfold processOne
      simp only [e1, if_true]
      rfl
    · by_cases hc : (!(fmt = "") && !(fmt = "none")) = true
      · refine compressorPost_single_ok pil today s ⟨"doc.pdf", content⟩ (some fmt)
          [Flash.couldNotConvert "doc.pdf"] ("doc.pdf", content) hp hq hsz ?_
        unfold processOne
        simp only [e1, if_true, hc, hop]
        rfl
      · refine compressorPost_single_ok pil today s ⟨"doc.pdf", content⟩ (some fmt)
          [] ("doc.pdf", content) hp hq hsz ?_
        unfold processOne
        simp only [e1, if_true, Bool.not_eq_true] at *
        simp only [hc, if_false]
        rfl

/-- Witness for C6 with the concrete image library: a PNG-tagged input named
`cv.png` converts to a `cv.jpeg` entry with JPEG-tagged content, and an
undecodable `doc.pdf` passes through byte-identical. -/
theorem claim6_witness :
    (compressorPost testPIL "2026-10-13" Session.init
        ⟨[⟨"cv.png", pngMagic ++ [9, 9]⟩], some "jpeg"⟩).response =
      PostResult.zipFile [("cv.jpeg", [255, 216, 9, 9])] ∧
    (compressorPost testPIL "2026-10-13" Session.init
        ⟨[⟨"doc.pdf", [1, 2, 3]⟩], some "gif"⟩).response =
      PostResult.zipFile [("doc.pdf", [1, 2, 3])] :=
  ⟨(claim6_conversion_behavior testPIL "2026-10-13" Session.init).1
      (pngMagic ++ [9, 9]) ⟨[9, 9]⟩ [255, 216, 9, 9] rfl (by decide) (by decide)
      (by decide) (by decide),
   (claim6_conversion_behavior testPIL "2026-10-13" Session.init).2
      [1, 2, 3] (some "gif") rfl (by decide) (by decide) (by decide)⟩

/-- Counterexample to C1 as stated: a `doc.pdf` uploaded with target format
"jpeg" fails to convert (the image library cannot decode it) — the failure is
flashed — yet the file DOES appear in the returned archive, with its original
bytes.  C1's "a file whose conversion fails does not appear in the archive"
is false of the code. -/
theorem claim1_counterexample :
    (compressorPost testPIL "2026-10-12" Session.init
        ⟨[⟨"doc.pdf", [1, 2, 3]⟩], some "jpeg"⟩).flashes =
      [Flash.couldNotConvert "doc.pdf"] ∧
    (compressorPost testPIL "2026-10-12" Session.init
        ⟨[⟨"doc.pdf", [1, 2, 3]⟩], some "jpeg"⟩).response =
      PostResult.zipFile [("doc.pdf", [1, 2, 3])] := by
  constructor <;> decide

/-- C1 (amended): whenever a POST to `/compressor` returns an archive, the
archive contains exactly the files that passed extension validation, in
order; a file whose requested conversion succeeded appears converted (renamed
and re-encoded), and a file whose conversion failed appears with its original
name and bytes (it is not dropped). -/
theorem claim1_archive_contents {Img : Type} (pil : PIL Img) (today : String)
    (s : Session) (req : UploadRequest) (entries : List (String × Bytes))
    (h : (compressorPost pil today s req).response = PostResult.zipFile entries) :
    entries = (req.files.filter (fun f => allowed_file f.filename)).map
      (archivedEntry pil req.format_option) := by
  unfold compressorPost at h
  by_cases h1 : req.files.isEmpty
  · simp [h1] at h
  · simp only [h1, Bool.false_eq_true, if_false] at h
    by_cases h2 : sizeLimitFor s < totalSize req.files
    · simp [h2] at h
    · simp only [h2, if_false] at h
      by_cases hp : s.premium
      · simp only [hp, if_true] at h
        rcases hb : buildZip pil req.format_option req.files with ⟨fl, r⟩
        rw [hb] at h
        cases r with
        | error e => simp at h
        | ok es =>
          simp at h
          rw [← h]
          exact buildZip_ok pil req.format_option req.files fl es hb
      · simp only [hp, Bool.false_eq_true, if_false] at h
        by_cases hq : (check_free_limit s today).2 = false
        · simp [hq] at h
        · simp only [hq, if_false] at h
          rcases hb : buildZip pil req.format_option req.files with ⟨fl, r⟩
          rw [hb] at h
          cases r with
          | error e => simp at h
          | ok es =>
            simp at h
            rw [← h]
            exact buildZip_ok pil req.format_option req.files fl es hb

/-- Witness for C1 (amended) on a concrete mixed batch: the disallowed
`virus.exe` is dropped, the convertible `cv.png` appears converted, and the
unconvertible `doc.pdf` appears with its original bytes. -/
theorem claim1_witness :
    [("cv.jpeg", [255, 216, 7]), ("doc.pdf", [4, 5])] =
      (([⟨"cv.png", pngMagic ++ [7]⟩, ⟨"virus.exe", [9]⟩, ⟨"doc.pdf", [4, 5]⟩]
          : List UploadedFile).filter (fun f => allowed_file f.filename)).map
        (archivedEntry testPIL (some "jpeg")) :=
  claim1_archive_contents testPIL "2026-10-12" Session.init
    ⟨[⟨"cv.png", pngMagic ++ [7]⟩, ⟨"virus.exe", [9]⟩, ⟨"doc.pdf", [4, 5]⟩],
      some "jpeg"⟩
    [("cv.jpeg", [255, 216, 7]), ("doc.pdf", [4, 5])] (by decide)

/-- Counterexample to C2 as stated: a batch consisting of the single
disallowed file `virus.exe` is NOT rejected — the "file not allowed" message
is flashed, but the handler still returns an archive (an empty ZIP) as an
attachment, and even consumes one unit of the free session's daily quota. -/
theorem claim2_counterexample :
    compressorPost testPIL "2026-10-12" Session.init
        ⟨[⟨"virus.exe", [0, 1, 2]⟩], some "none"⟩ =
      ⟨⟨false, [("uploads_2026-10-12", 1)]⟩, [Flash.notAllowed "virus.exe"],
        PostResult.zipFile []⟩ := by
  decide

/-- C2 (amended): for a single uploaded file with a disallowed extension
(within the size limit, quota available), the handler flashes the
"file not allowed" message for it, but the request is not rejected: an empty
ZIP archive is returned to the caller. -/
theorem claim2_disallowed_single {Img : Type} (pil : PIL Img) (today : String)
    (s : Session) (f : UploadedFile) (fmtOpt : Option String)
    (hp : s.premium = false) (hq : uploadCount s today < 2)
    (ha : allowed_file f.filename = false)
    (hsz : f.content.length ≤ 2 * 1024 * 1024) :
    (compressorPost pil today s ⟨[f], fmtOpt⟩).flashes =
      [Flash.notAllowed f.filename] ∧
    (compressorPost pil today s ⟨[f], fmtOpt⟩).response =
      PostResult.zipFile [] := by
  have h1 : ([f] : List UploadedFile).isEmpty = false := rfl
  have h2 : ¬ sizeLimitFor s < totalSize [f] := by
    simp only [sizeLimitFor, hp, Bool.false_eq_true, if_false]
    have ht : totalSize [f] = f.content.length := by simp [totalSize]
    rw [ht]
    exact not_lt.mpr hsz
  have hqq : ¬ (check_free_limit s today).2 = false := by
    rw [check_free_limit_snd]
    simp [FREE_LIMIT_PER_DAY, hq]
  have hz : buildZip pil fmtOpt [f] = ([Flash.notAllowed f.filename],
      Except.ok []) := by
    unfold buildZip
    unfold processOne
    simp only [ha, Bool.false_eq_true, if_false]
    simp [buildZip, Except.map]
  unfold compressorPost
  simp only [h1, Bool.false_eq_true, if_false, h2, hp, if_true, hqq, hz]
  exact ⟨rfl, rfl⟩

/-- Witness for C2 (amended) at a concrete `.exe` upload in a fresh session on
another date. -/
theorem claim2_witness :
    (compressorPost testPIL "2026-10-14" Session.init
        ⟨[⟨"setup.exe", [3, 1]⟩], some "gif"⟩).flashes =
      [Flash.notAllowed "setup.exe"] ∧
    (compressorPost testPIL "2026-10-14" Session.init
        ⟨[⟨"setup.exe", [3, 1]⟩], some "gif"⟩).response =
      PostResult.zipFile [] :=
  claim2_disallowed_single testPIL "2026-10-14" Session.init ⟨"setup.exe", [3, 1]⟩
    (some "gif") rfl (by decide) (by decide) (by decide)

end CvVirtual
